import Mathlib

/-!
Shallow embedding of the AuthAI cloud core module
(src/authai_core_cloud.py) and proofs of the specification claims.

Modelling conventions:
* Python floats are modelled as rationals (ℚ).
* A fallible Python call (one that may raise) is modelled as a function
  returning an `Option`: `none` means the call raised, and the exception
  is handled exactly where the corresponding Python handler sits.
* The process-global random source is modelled by explicit inputs: each
  tick carries the six standard-normal draws used by the feature
  simulator (so `random.gauss(0, v)` becomes `v * g` for the draw `g`)
  and an opaque timestamp string.
* The CSV log file is modelled as `Option (List (List String))`:
  `none` when the file does not exist, otherwise the list of rows,
  each row a list of cell strings.
-/

namespace AuthAI

/-- The scaler method `transform` applied on one row of features; `none` models a raise. -/
abbrev Scaler := List ℚ → Option (List ℚ)

/-- An opaque classifier, as used by `_predict_with_model`.
`predict_proba = some f` models the Python check hasattr for predict_proba being
true, with `f arr` the first row of `model.predict_proba([arr])`
(`none` models a raise there).  `predict arr` models
`model.predict([arr])[0]` (`none` models a raise or an empty result). -/
structure Model where
  predict_proba : Option (List ℚ → Option (List ℚ))
  predict : List ℚ → Option Int

/-- The six named behavioural metrics (`features` dict keys in order). -/
structure FeatureVector where
  avg_mouse_speed : ℚ
  avg_typing_speed : ℚ
  tab_switch_rate : ℚ
  mouse_click_rate : ℚ
  keyboard_error_rate : ℚ
  active_window_duration : ℚ

/-- `self.base_features` (lines 36-43). -/
def base_features : FeatureVector :=
  { avg_mouse_speed := 150
    avg_typing_speed := 200
    tab_switch_rate := 1/2
    mouse_click_rate := 2
    keyboard_error_rate := 1/20
    active_window_duration := 10 }

/-- `self.feature_variance` (lines 46-53). -/
def feature_variance : FeatureVector :=
  { avg_mouse_speed := 50
    avg_typing_speed := 80
    tab_switch_rate := 1/5
    mouse_click_rate := 1
    keyboard_error_rate := 3/100
    active_window_duration := 5 }

/-- `_generate_simulated_features` (lines 67-75):
`features[f] = max(0, base + random.gauss(0, variance))`, with the
gauss draw modelled as `variance * g` for a standard draw `g`
(one draw per metric, supplied in `g`). -/
def generate_simulated_features (g : FeatureVector) : FeatureVector :=
  { avg_mouse_speed :=
      max 0 (base_features.avg_mouse_speed +
        feature_variance.avg_mouse_speed * g.avg_mouse_speed)
    avg_typing_speed :=
      max 0 (base_features.avg_typing_speed +
        feature_variance.avg_typing_speed * g.avg_typing_speed)
    tab_switch_rate :=
      max 0 (base_features.tab_switch_rate +
        feature_variance.tab_switch_rate * g.tab_switch_rate)
    mouse_click_rate :=
      max 0 (base_features.mouse_click_rate +
        feature_variance.mouse_click_rate * g.mouse_click_rate)
    keyboard_error_rate :=
      max 0 (base_features.keyboard_error_rate +
        feature_variance.keyboard_error_rate * g.keyboard_error_rate)
    active_window_duration :=
      max 0 (base_features.active_window_duration +
        feature_variance.active_window_duration * g.active_window_duration) }

/-- The ordered input array assembled at lines 81-88. -/
def feature_array (f : FeatureVector) : List ℚ :=
  [f.avg_mouse_speed, f.avg_typing_speed, f.tab_switch_rate,
   f.mouse_click_rate, f.keyboard_error_rate, f.active_window_duration]

/-- `if self.scaler: feature_array = self.scaler.transform(...)`
(lines 91-92); a raise inside `transform` propagates (`none`). -/
def scale_step (sc : Option Scaler) (arr : List ℚ) : Option (List ℚ) :=
  match sc with
  | none => some arr
  | some s => s arr

/-- The dict returned by `_predict_with_model`. -/
structure PredictionResult where
  score : ℚ
  is_improper : Nat
  prediction : String

/-- The default returned by the `except` branch of `_predict_with_model`
(lines 117-124). -/
def default_prediction : PredictionResult :=
  { score := 1/10, is_improper := 0, prediction := "Person" }

/-- Lines 109-115: `is_improper = 1 if score > 0.5 else 0` and the
human-readable label. -/
def mk_prediction (score : ℚ) : PredictionResult :=
  { score := score
    is_improper := if 1/2 < score then 1 else 0
    prediction := if 1/2 < score then "Robot" else "Person" }

/-- `_predict_with_model` (lines 77-124).  Every raise inside the `try`
(scaler transform, model call, indexing an empty probability row) lands
in the `except` branch, which returns `default_prediction`. -/
def predict_with_model (sc : Option Scaler) (m : Model)
    (features : FeatureVector) : PredictionResult :=
  match scale_step sc (feature_array features) with
  | none => default_prediction
  | some arr =>
    match m.predict_proba with
    | some f =>
      match f arr with
      | none => default_prediction
      | some row =>
        match (if row.length > 1 then row.get? 1 else row.get? 0) with
        | none => default_prediction
        | some s => mk_prediction s
    | none =>
      match m.predict arr with
      | none => default_prediction
      | some l => mk_prediction (if l = -1 then 4/5 else 1/5)

/-- The detection dict assembled at lines 136-143. -/
structure DetectionRecord where
  timestamp : String
  user_id : String
  model : String
  score : ℚ
  is_improper : Nat
  avg_mouse_speed : ℚ
  avg_typing_speed : ℚ
  tab_switch_rate : ℚ
  mouse_click_rate : ℚ
  keyboard_error_rate : ℚ
  active_window_duration : ℚ

/-- The CSV log file: `none` when it does not exist, else its rows. -/
abbrev FS := Option (List (List String))

/-- The header row written by `_init_log_file` (lines 58-62). -/
def csv_headers : List String :=
  ["timestamp", "user_id", "model", "score", "is_improper",
   "avg_mouse_speed", "avg_typing_speed", "tab_switch_rate",
   "mouse_click_rate", "keyboard_error_rate", "active_window_duration"]

/-- `_init_log_file` (lines 55-65): write the header row only when the
file does not yet exist. -/
def init_log_file (fs : FS) : FS :=
  match fs with
  | none => some [csv_headers]
  | some rows => some rows

/-- The row written by `_log_detection` (lines 159-171). -/
def detection_row (d : DetectionRecord) : List String :=
  [d.timestamp, d.user_id, d.model, toString d.score,
   toString d.is_improper, toString d.avg_mouse_speed,
   toString d.avg_typing_speed, toString d.tab_switch_rate,
   toString d.mouse_click_rate, toString d.keyboard_error_rate,
   toString d.active_window_duration]

/-- `_log_detection` (lines 154-173): append one row; a raise from the
file write (`write_fails`) is caught and swallowed, leaving the file
unchanged.  Appending to a non-existent file creates it (append-mode open). -/
def log_detection (fs : FS) (write_fails : Bool) (d : DetectionRecord) : FS :=
  if write_fails then fs
  else
    match fs with
    | none => some [detection_row d]
    | some rows => some (rows ++ [detection_row d])

/-- The `CloudRealTimeMonitor` instance state (lines 20-33). -/
structure Monitor where
  model_name : String
  model : Model
  scaler : Option Scaler
  window_seconds : ℚ
  detection_interval : ℚ
  is_running : Bool
  log_file : String

/-- `CloudRealTimeMonitor.__init__` (lines 20-33): set the fields and
initialise the log file. -/
def mk_monitor (model_name : String) (model : Model) (scaler : Option Scaler)
    (fs : FS) : Monitor × FS :=
  ({ model_name := model_name
     model := model
     scaler := scaler
     window_seconds := 30
     detection_interval := 2
     is_running := false
     log_file := "detections_log.csv" }, init_log_file fs)

/-- The per-tick ambient inputs: the six standard-normal
draws, the `datetime.now(timezone.utc).isoformat()` string, and whether
the log-file write raises this tick. -/
structure TickInput where
  noise : FeatureVector
  timestamp : String
  write_fails : Bool

/-- The detection record one call of `run_detection_once` assembles
(lines 130-143). -/
def tick_record (m : Monitor) (t : TickInput) : DetectionRecord :=
  let features := generate_simulated_features t.noise
  let pr := predict_with_model m.scaler m.model features
  { timestamp := t.timestamp
    user_id := "cloud_user"
    model := m.model_name
    score := pr.score
    is_improper := pr.is_improper
    avg_mouse_speed := features.avg_mouse_speed
    avg_typing_speed := features.avg_typing_speed
    tab_switch_rate := features.tab_switch_rate
    mouse_click_rate := features.mouse_click_rate
    keyboard_error_rate := features.keyboard_error_rate
    active_window_duration := features.active_window_duration }

/-- `run_detection_once` (lines 126-152): generate features, predict,
assemble the record, log it, return it.  Inference errors are caught
inside `_predict_with_model` and logging errors inside
`_log_detection`; feature generation and record assembly are pure, so
the function always returns the record (the outer `except ... return
None` is reached by none of the modelled steps).  The returned triple is
(result, monitor after the call, file after the call). -/
def run_detection_once (m : Monitor) (t : TickInput) (fs : FS) :
    Option DetectionRecord × Monitor × FS :=
  let detection := tick_record m t
  (some detection, m, log_detection fs t.write_fails detection)

/-- `start` (lines 175-178): set the running flag; the file is untouched. -/
def start (m : Monitor) (fs : FS) : Monitor × FS :=
  ({ m with is_running := true }, fs)

/-- `stop` (lines 180-183): clear the running flag; the file is untouched. -/
def stop (m : Monitor) (fs : FS) : Monitor × FS :=
  ({ m with is_running := false }, fs)

/-- `N` consecutive `run_detection_once` calls (tick `0` first),
threading the log file. -/
def run_n (m : Monitor) (ticks : Nat → TickInput) : Nat → FS → FS
  | 0, fs => fs
  | n + 1, fs => (run_detection_once m (ticks n) (run_n m ticks n fs)).2.2

/-- The data rows the first `N` ticks append. -/
def data_rows (m : Monitor) (ticks : Nat → TickInput) (N : Nat) :
    List (List String) :=
  (List.range N).map fun i => detection_row (tick_record m (ticks i))

/-! ### The model loader (`load_best_model_and_meta`, lines 209-262) -/

/-- The constructor arguments of the demo classifier.  The default field
values are the documented library defaults (`n_estimators=100`,
`random_state=None` for the scikit-learn RandomForestClassifier), so
`{}` denotes a default-configured classifier. -/
structure RFParams where
  n_estimators : Nat := 100
  random_state : Option Int := none
deriving DecidableEq

/-- `RandomForestClassifier(n_estimators=10, random_state=42)` (line 249). -/
def demo_rf_params : RFParams :=
  { n_estimators := 10, random_state := some 42 }

/-- `np.random.rand(100, 6)` (line 252): 100 samples of 6 features. -/
def demo_training_samples : Nat := 100

/-- The 6 in `np.random.rand(100, 6)` (line 252). -/
def demo_training_features : Nat := 6

/-- The external world the loader runs in: which files exist, what
deserializing each path yields (`none` models a raise in
`joblib.load`), whether the two libraries import, and what fitting the
demo classifier on the random training data produces. -/
structure LoaderEnv where
  exists_file : String → Bool
  load_model : String → Option Model
  load_scaler : String → Option Scaler
  joblib_available : Bool
  sklearn_available : Bool
  fit_demo : RFParams → Nat → Nat → Model

/-- The candidate list `model_files` (lines 218-222), in iteration order. -/
def model_files : List (String × String) :=
  [("RandomForest", "models/rf_model.joblib"),
   ("XGBoost", "models/xgb_model.joblib"),
   ("IsolationForest", "models/iso_model.joblib")]

/-- `drop_pat pat l` returns `some rest` when `pat` is a leading
segment of `l`, with `rest` the remainder after it. -/
def drop_pat : List Char → List Char → Option (List Char)
  | [], l => some l
  | _ :: _, [] => none
  | p :: ps, c :: cs => if c = p then drop_pat ps cs else none

/-- Left-to-right replacement of every occurrence of `pat` by `rep`,
the semantics of the Python method str.replace for a non-empty pattern.  The
fuel argument (instantiated with the length of the input) only forces
structural termination; with a non-empty pattern every step consumes at
least one character, so the fuel never runs out. -/
def replace_go (pat rep : List Char) : Nat → List Char → List Char
  | 0, l => l
  | _ + 1, [] => []
  | fuel + 1, c :: cs =>
    match drop_pat pat (c :: cs) with
    | some rest => rep ++ replace_go pat rep fuel rest
    | none => c :: replace_go pat rep fuel cs

/-- The call of str replace mapping _model.joblib to _scaler.joblib in model_path (line 232). -/
def scaler_path_of (p : String) : String :=
  ⟨replace_go "_model.joblib".data "_scaler.joblib".data p.data.length p.data⟩

/-- The loader outcome: the returned 4-tuple, or the fatal
`raise Exception` of the `except ImportError` branch (lines 260-262). -/
inductive LoadResult where
  | ok (name : String) (model : Model) (scaler : Option Scaler)
      (meta : Option Unit)
  | fatal

/-- The candidate loop (lines 225-242).  A raise anywhere inside the
per-candidate `try` — from `joblib.load` on the model file or on the
scaler file — is caught by the per-candidate handler, which `continue`s
to the next candidate. -/
def try_candidates (env : LoaderEnv) :
    List (String × String) → Option (String × Model × Option Scaler)
  | [] => none
  | (name, path) :: rest =>
    if env.exists_file path then
      match env.load_model path with
      | none => try_candidates env rest
      | some m =>
        if env.exists_file (scaler_path_of path) then
          match env.load_scaler (scaler_path_of path) with
          | none => try_candidates env rest
          | some s => some (name, m, some s)
        else some (name, m, none)
    else try_candidates env rest

/-- `load_best_model_and_meta` (lines 209-262): try each candidate; if
none loads, fit the demo classifier on the random training data; the
only fatal outcome is an `ImportError` (joblib at line 215, sklearn at
line 246). -/
def load_best_model_and_meta (env : LoaderEnv) : LoadResult :=
  if env.joblib_available then
    match try_candidates env model_files with
    | some (name, m, sc) => .ok name m sc none
    | none =>
      if env.sklearn_available then
        .ok "Demo_RandomForest"
          (env.fit_demo demo_rf_params demo_training_samples
            demo_training_features) none none
      else .fatal
  else .fatal

/-! ### Concrete objects used by witnesses and counterexamples -/

/-- A fixed tick: zero noise draws, a fixed timestamp, a succeeding write. -/
def tick0 : TickInput :=
  { noise := ⟨0, 0, 0, 0, 0, 0⟩
    timestamp := "2026-01-01T00:00:00+00:00"
    write_fails := false }

/-- A constant tick stream. -/
def ticks0 : Nat → TickInput := fun _ => tick0

/-- A probability output with two classes, class 1 at 3/4. -/
def proba_w : List ℚ → Option (List ℚ) := fun _ => some [1/4, 3/4]

/-- A model exposing probability output. -/
def model_w : Model := { predict_proba := some proba_w, predict := fun _ => some 1 }

/-- A probability output with a single class. -/
def proba_single : List ℚ → Option (List ℚ) := fun _ => some [3/5]

/-- A model exposing a one-entry probability output. -/
def model_single : Model :=
  { predict_proba := some proba_single, predict := fun _ => some 1 }

/-- A label-only model (no probability output), always predicting 1. -/
def model_label : Model := { predict_proba := none, predict := fun _ => some 1 }

/-- A probability call that always raises. -/
def proba_fail : List ℚ → Option (List ℚ) := fun _ => none

/-- A model whose inference always raises. -/
def model_fail : Model :=
  { predict_proba := some proba_fail, predict := fun _ => some 1 }

/-- A monitor built on `model_w`, starting from a non-existent log file. -/
def mon_w : Monitor := (mk_monitor "RandomForest" model_w none none).1

/-- A monitor whose model raises on every inference. -/
def mon_fail : Monitor := (mk_monitor "IsolationForest" model_fail none none).1

/-- A loader world with no model files at all and both libraries present. -/
def env_empty : LoaderEnv :=
  { exists_file := fun _ => false
    load_model := fun _ => none
    load_scaler := fun _ => none
    joblib_available := true
    sklearn_available := true
    fit_demo := fun _ _ _ => model_w }

/-- A loader world where the joblib import fails. -/
def env_fatal : LoaderEnv := { env_empty with joblib_available := false }

/-- A loader world where every candidate file exists but every model
deserialization raises. -/
def env_loads_fail : LoaderEnv :=
  { exists_file := fun _ => true
    load_model := fun _ => none
    load_scaler := fun _ => none
    joblib_available := true
    sklearn_available := true
    fit_demo := fun _ _ _ => model_w }

/-- A loader world where the RandomForest model file loads but its
co-located scaler file exists and fails to deserialize. -/
def env_scaler_bad : LoaderEnv :=
  { exists_file := fun p =>
      p == "models/rf_model.joblib" || p == "models/rf_scaler.joblib"
    load_model := fun p =>
      if p == "models/rf_model.joblib" then some model_w else none
    load_scaler := fun _ => none
    joblib_available := true
    sklearn_available := true
    fit_demo := fun _ _ _ => model_w }

/-- A loader world where only the RandomForest model file exists and loads. -/
def env_rf_ok : LoaderEnv :=
  { exists_file := fun p => p == "models/rf_model.joblib"
    load_model := fun p =>
      if p == "models/rf_model.joblib" then some model_w else none
    load_scaler := fun _ => none
    joblib_available := true
    sklearn_available := true
    fit_demo := fun _ _ _ => model_w }

/-! ### Helper lemmas -/

theorem mk_prediction_iff (s : ℚ) :
    (mk_prediction s).is_improper = 1 ↔ 1/2 < (mk_prediction s).score := by
  unfold mk_prediction
  dsimp only
  split
  next h => exact iff_of_true rfl h
  next h => exact iff_of_false (by omega) h

theorem default_prediction_invariant :
    0 ≤ default_prediction.score ∧ default_prediction.score ≤ 1 ∧
      (default_prediction.is_improper = 1 ↔ 1/2 < default_prediction.score) := by
  refine ⟨by norm_num [default_prediction], by norm_num [default_prediction], ?_⟩
  norm_num [default_prediction]

theorem mk_prediction_invariant (s : ℚ) (h0 : 0 ≤ s) (h1 : s ≤ 1) :
    0 ≤ (mk_prediction s).score ∧ (mk_prediction s).score ≤ 1 ∧
      ((mk_prediction s).is_improper = 1 ↔ 1/2 < (mk_prediction s).score) :=
  ⟨h0, h1, mk_prediction_iff s⟩

/-- Every outcome of `predict_with_model` is either the error default or
`mk_prediction` applied to a score that is 4/5, 1/5, or an entry of a
probability row the model produced. -/
theorem predict_with_model_cases (sc : Option Scaler) (m : Model)
    (fv : FeatureVector) :
    predict_with_model sc m fv = default_prediction ∨
    ∃ s, predict_with_model sc m fv = mk_prediction s ∧
      (s = 4/5 ∨ s = 1/5 ∨
        ∃ f arr row, m.predict_proba = some f ∧ f arr = some row ∧ s ∈ row) := by
  unfold predict_with_model
  cases hs : scale_step sc (feature_array fv) with
  | none => exact Or.inl rfl
  | some arr =>
    dsimp only
    cases hpp : m.predict_proba with
    | some f =>
      dsimp only
      cases hrow : f arr with
      | none => exact Or.inl rfl
      | some row =>
        dsimp only
        cases hidx : (if row.length > 1 then row.get? 1 else row.get? 0) with
        | none => exact Or.inl rfl
        | some s =>
          refine Or.inr ⟨s, rfl, Or.inr (Or.inr ⟨f, arr, row, rfl, hrow, ?_⟩)⟩
          by_cases hlen : row.length > 1
          · rw [if_pos hlen] at hidx
            exact List.get?_mem hidx
          · rw [if_neg hlen] at hidx
            exact List.get?_mem hidx
    | none =>
      dsimp only
      cases hpr : m.predict arr with
      | none => exact Or.inl rfl
      | some l =>
        dsimp only
        by_cases hl : l = -1
        · exact Or.inr ⟨4/5, by rw [if_pos hl], Or.inl rfl⟩
        · exact Or.inr ⟨1/5, by rw [if_neg hl], Or.inr (Or.inl rfl)⟩

/-- When every probability row the model can produce stays within
[0, 1], the prediction score does too, and the improper flag matches
the 1/2 threshold. -/
theorem predict_score_invariant (sc : Option Scaler) (m : Model)
    (fv : FeatureVector)
    (hp : ∀ f arr row, m.predict_proba = some f → f arr = some row →
      ∀ x ∈ row, 0 ≤ x ∧ x ≤ 1) :
    0 ≤ (predict_with_model sc m fv).score ∧
      (predict_with_model sc m fv).score ≤ 1 ∧
      ((predict_with_model sc m fv).is_improper = 1 ↔
        1/2 < (predict_with_model sc m fv).score) := by
  rcases predict_with_model_cases sc m fv with h | ⟨s, hps, hsrc⟩
  · rw [h]
    exact default_prediction_invariant
  · rw [hps]
    have hbounds : 0 ≤ s ∧ s ≤ 1 := by
      rcases hsrc with rfl | rfl | ⟨f, arr, row, hf, hrow, hmem⟩
      · constructor <;> norm_num
      · constructor <;> norm_num
      · exact hp f arr row hf hrow s hmem
    exact mk_prediction_invariant s hbounds.1 hbounds.2

/-! ### Claims -/

/-- Claim C6: every FeatureVector returned by
`_generate_simulated_features` has all six field values ≥ 0: each field
is the metric baseline plus the metric standard deviation times the
gauss draw, clamped to zero if negative. -/
theorem C6_features_nonneg (g : FeatureVector) :
    0 ≤ (generate_simulated_features g).avg_mouse_speed ∧
    0 ≤ (generate_simulated_features g).avg_typing_speed ∧
    0 ≤ (generate_simulated_features g).tab_switch_rate ∧
    0 ≤ (generate_simulated_features g).mouse_click_rate ∧
    0 ≤ (generate_simulated_features g).keyboard_error_rate ∧
    0 ≤ (generate_simulated_features g).active_window_duration :=
  ⟨le_max_left 0 _, le_max_left 0 _, le_max_left 0 _,
   le_max_left 0 _, le_max_left 0 _, le_max_left 0 _⟩

/-- Claim C9: `start` sets the running flag true and `stop` sets it
false; neither writes to the log file nor changes any other monitor
field, so `start` immediately followed by `stop` leaves the flag false
with the log file untouched. -/
theorem C9_start_stop_frame (m : Monitor) (fs : FS) :
    (start m fs).1.is_running = true ∧
    (stop m fs).1.is_running = false ∧
    start m fs = ({ m with is_running := true }, fs) ∧
    stop m fs = ({ m with is_running := false }, fs) ∧
    stop (start m fs).1 (start m fs).2 = ({ m with is_running := false }, fs) :=
  ⟨rfl, rfl, rfl, rfl, rfl⟩

/-- Claim C10: `run_detection_once` neither reads nor modifies the
running flag: its result and its effect on the log are the same for any
value of the flag, it leaves the monitor state unchanged, and it always
returns the assembled record. -/
theorem C10_run_ignores_flag (m : Monitor) (b : Bool) (t : TickInput)
    (fs : FS) :
    (run_detection_once { m with is_running := b } t fs).1 =
      (run_detection_once m t fs).1 ∧
    (run_detection_once { m with is_running := b } t fs).2.2 =
      (run_detection_once m t fs).2.2 ∧
    (run_detection_once m t fs).2.1 = m ∧
    (run_detection_once m t fs).1 = some (tick_record m t) := by
  obtain ⟨mn, mo, sc, w, di, r, lf⟩ := m
  exact ⟨rfl, rfl, rfl, rfl⟩

/-- Claim C1: for every DetectionRecord produced by a
`run_detection_once` call (including the one built from the
inference-error default), provided every probability row the model can
produce stays within [0, 1], the score lies in [0, 1] and `is_improper`
equals 1 if and only if the score exceeds 1/2. -/
theorem C1_record_invariant (m : Monitor) (t : TickInput) (fs : FS)
    (d : DetectionRecord)
    (hp : ∀ f arr row, m.model.predict_proba = some f → f arr = some row →
      ∀ x ∈ row, 0 ≤ x ∧ x ≤ 1)
    (hd : (run_detection_once m t fs).1 = some d) :
    0 ≤ d.score ∧ d.score ≤ 1 ∧ (d.is_improper = 1 ↔ 1/2 < d.score) := by
  have hrec : some (tick_record m t) = some d := hd
  have hrec2 := Option.some.inj hrec
  subst hrec2
  exact predict_score_invariant m.scaler m.model
    (generate_simulated_features t.noise) hp

/-- Witness for C1 at a concrete probabilistic model and tick. -/
theorem C1_record_invariant_witness :
    0 ≤ (tick_record mon_w tick0).score ∧
    (tick_record mon_w tick0).score ≤ 1 ∧
    ((tick_record mon_w tick0).is_improper = 1 ↔
      1/2 < (tick_record mon_w tick0).score) :=
  C1_record_invariant mon_w tick0 none (tick_record mon_w tick0)
    (by
      intro f arr row hf hrow x hx
      have hf2 : proba_w = f := Option.some.inj hf
      rw [← hf2] at hrow
      have hrow2 : [(1:ℚ)/4, 3/4] = row := Option.some.inj hrow
      rw [← hrow2] at hx
      simp only [List.mem_cons, List.not_mem_nil, or_false] at hx
      rcases hx with rfl | rfl
      · constructor <;> norm_num
      · constructor <;> norm_num)
    rfl

/-- Claim C2: when the model exposes only label output and the scaling
and prediction steps succeed, `_predict_with_model` maps label -1 to
score exactly 4/5 with `is_improper` 1, and any other label to score
exactly 1/5 with `is_improper` 0. -/
theorem C2_label_only_mapping (sc : Option Scaler) (m : Model)
    (fv : FeatureVector) (arr : List ℚ) (l : Int)
    (hnp : m.predict_proba = none)
    (hsc : scale_step sc (feature_array fv) = some arr)
    (hl : m.predict arr = some l) :
    predict_with_model sc m fv = mk_prediction (if l = -1 then 4/5 else 1/5) ∧
    (mk_prediction ((4:ℚ)/5)).score = 4/5 ∧
    (mk_prediction ((4:ℚ)/5)).is_improper = 1 ∧
    (mk_prediction ((1:ℚ)/5)).score = 1/5 ∧
    (mk_prediction ((1:ℚ)/5)).is_improper = 0 := by
  refine ⟨?_, rfl, ?_, rfl, ?_⟩
  · unfold predict_with_model
    rw [hsc]
    dsimp only
    rw [hnp]
    dsimp only
    rw [hl]
  · show (if (1:ℚ)/2 < 4/5 then 1 else 0) = 1
    norm_num
  · show (if (1:ℚ)/2 < 1/5 then 1 else 0) = 0
    norm_num

/-- Witness for C2 at a concrete label-only model. -/
theorem C2_label_only_mapping_witness :
    predict_with_model none model_label base_features =
      mk_prediction (if (1:Int) = -1 then 4/5 else 1/5) ∧
    (mk_prediction ((4:ℚ)/5)).score = 4/5 ∧
    (mk_prediction ((4:ℚ)/5)).is_improper = 1 ∧
    (mk_prediction ((1:ℚ)/5)).score = 1/5 ∧
    (mk_prediction ((1:ℚ)/5)).is_improper = 0 :=
  C2_label_only_mapping none model_label base_features
    (feature_array base_features) 1 rfl rfl rfl

/-- Counterexample to claim C3 as stated: with a model whose inference
raises, `run_detection_once` does not return None — it returns the
assembled record, built from the internal default (score 1/10,
`is_improper` 0), and still appends it to the log. -/
theorem C3_counterexample :
    (run_detection_once mon_fail tick0 (some [csv_headers])).1 ≠ none ∧
    (run_detection_once mon_fail tick0 (some [csv_headers])).1 =
      some (tick_record mon_fail tick0) ∧
    (tick_record mon_fail tick0).score = 1/10 ∧
    (tick_record mon_fail tick0).is_improper = 0 ∧
    (run_detection_once mon_fail tick0 (some [csv_headers])).2.2 =
      some [csv_headers, detection_row (tick_record mon_fail tick0)] :=
  ⟨Option.some_ne_none _, rfl, rfl, rfl, rfl⟩

/-- Claim C3 as amended: inference errors are caught inside
`_predict_with_model`, which substitutes the default low-score result;
`run_detection_once` still returns (and logs) a record built from that
default, rather than returning None; a logging error is caught inside
`_log_detection`, leaving the file unchanged while the record is still
returned.  No error propagates to the caller. -/
theorem C3_errors_contained (m : Monitor) (t : TickInput) (fs : FS)
    (f : List ℚ → Option (List ℚ))
    (hf : m.model.predict_proba = some f)
    (hfail : ∀ arr, f arr = none) :
    ((run_detection_once m t fs).1).isSome = true ∧
    Option.map DetectionRecord.score (run_detection_once m t fs).1 =
      some (1/10) ∧
    Option.map DetectionRecord.is_improper (run_detection_once m t fs).1 =
      some 0 ∧
    (run_detection_once m t fs).2.2 =
      log_detection fs t.write_fails (tick_record m t) ∧
    log_detection fs true (tick_record m t) = fs := by
  have hpred : predict_with_model m.scaler m.model
      (generate_simulated_features t.noise) = default_prediction := by
    unfold predict_with_model
    cases hs : scale_step m.scaler
        (feature_array (generate_simulated_features t.noise)) with
    | none => rfl
    | some arr =>
      dsimp only
      rw [hf]
      dsimp only
      rw [hfail arr]
  refine ⟨rfl, ?_, ?_, rfl, rfl⟩
  · show some (tick_record m t).score = some (1/10)
    unfold tick_record
    dsimp only
    rw [hpred]
    rfl
  · show some (tick_record m t).is_improper = some 0
    unfold tick_record
    dsimp only
    rw [hpred]
    rfl

/-- Witness for the amended C3 at a concrete always-raising model. -/
theorem C3_errors_contained_witness :
    ((run_detection_once mon_fail tick0 (some [csv_headers])).1).isSome =
      true ∧
    Option.map DetectionRecord.score
      (run_detection_once mon_fail tick0 (some [csv_headers])).1 =
      some (1/10) ∧
    Option.map DetectionRecord.is_improper
      (run_detection_once mon_fail tick0 (some [csv_headers])).1 = some 0 ∧
    (run_detection_once mon_fail tick0 (some [csv_headers])).2.2 =
      log_detection (some [csv_headers]) tick0.write_fails
        (tick_record mon_fail tick0) ∧
    log_detection (some [csv_headers]) true (tick_record mon_fail tick0) =
      some [csv_headers] :=
  C3_errors_contained mon_fail tick0 (some [csv_headers]) proba_fail rfl
    (fun _ => rfl)

/-- Counterexample to claim C4 as stated: the demo classifier is not
default-configured — the code passes `n_estimators=10` and
`random_state=42` explicitly, where the library defaults are 100 and
no fixed seed. -/
theorem C4_counterexample :
    demo_rf_params ≠ ({} : RFParams) ∧
    demo_rf_params.n_estimators = 10 ∧
    demo_rf_params.random_state = some 42 := by
  refine ⟨?_, rfl, rfl⟩
  decide

/-- The candidate loop yields nothing when every candidate either has
no model file or has one whose deserialization raises (in the latter
case the per-candidate handler continues to the next candidate). -/
theorem try_candidates_eq_none (env : LoaderEnv)
    (cands : List (String × String))
    (h : ∀ np ∈ cands,
      env.exists_file np.2 = false ∨ env.load_model np.2 = none) :
    try_candidates env cands = none := by
  induction cands with
  | nil => rfl
  | cons hd tl ih =>
    obtain ⟨name, path⟩ := hd
    have hhd : env.exists_file path = false ∨ env.load_model path = none :=
      h (name, path) (List.mem_cons_self _ _)
    have htl : ∀ np ∈ tl,
        env.exists_file np.2 = false ∨ env.load_model np.2 = none :=
      fun np hnp => h np (List.mem_cons_of_mem _ hnp)
    rcases hhd with hh | hh
    · simp only [try_candidates]
      rw [hh]
      exact ih htl
    · simp only [try_candidates]
      by_cases hex : env.exists_file path = true
      · rw [if_pos hex, hh]
        exact ih htl
      · rw [if_neg hex]
        exact ih htl

/-- Claim C4 as amended: if no candidate model file exists, or every
candidate model file that exists fails to deserialize, and both
libraries are available, `load_best_model_and_meta` returns the usable
4-tuple (Demo_RandomForest, demo model, None, None), where the demo
model is a classifier configured with `n_estimators=10` and
`random_state=42` and fitted on 100 samples of 6 random features with
100 random binary labels; and the fatal outcome occurs only when a
required library is unavailable. -/
theorem C4_demo_fallback (env env2 : LoaderEnv)
    (hj : env.joblib_available = true)
    (hsk : env.sklearn_available = true)
    (hnone : ∀ np, np ∈ model_files →
      env.exists_file np.2 = false ∨ env.load_model np.2 = none)
    (hfatal : load_best_model_and_meta env2 = .fatal) :
    load_best_model_and_meta env =
      .ok "Demo_RandomForest"
        (env.fit_demo demo_rf_params demo_training_samples
          demo_training_features) none none ∧
    (env2.joblib_available = false ∨ env2.sklearn_available = false) := by
  constructor
  · have htc := try_candidates_eq_none env model_files hnone
    unfold load_best_model_and_meta
    rw [if_pos hj, htc, if_pos hsk]
  · by_cases hj2 : env2.joblib_available = true
    · right
      by_cases hs2 : env2.sklearn_available = true
      · exfalso
        unfold load_best_model_and_meta at hfatal
        rw [if_pos hj2] at hfatal
        cases htc : try_candidates env2 model_files with
        | some x =>
          rw [htc] at hfatal
          exact LoadResult.noConfusion hfatal
        | none =>
          rw [htc] at hfatal
          rw [if_pos hs2] at hfatal
          exact LoadResult.noConfusion hfatal
      · simpa using hs2
    · left
      simpa using hj2

/-- Witness for the amended C4: a world with no model files at all, a
world where every model file exists but fails to deserialize, and a
world with no joblib. -/
theorem C4_demo_fallback_witness :
    (load_best_model_and_meta env_empty =
      .ok "Demo_RandomForest"
        (env_empty.fit_demo demo_rf_params demo_training_samples
          demo_training_features) none none ∧
    (env_fatal.joblib_available = false ∨
      env_fatal.sklearn_available = false)) ∧
    (load_best_model_and_meta env_loads_fail =
      .ok "Demo_RandomForest"
        (env_loads_fail.fit_demo demo_rf_params demo_training_samples
          demo_training_features) none none ∧
    (env_fatal.joblib_available = false ∨
      env_fatal.sklearn_available = false)) :=
  ⟨C4_demo_fallback env_empty env_fatal rfl rfl
    (fun _ _ => Or.inl rfl) rfl,
   C4_demo_fallback env_loads_fail env_fatal rfl rfl
    (fun _ _ => Or.inr rfl) rfl⟩

/-- Counterexample to claim C5 as stated: in `env_scaler_bad` the
RandomForest model file deserializes successfully, but because its
co-located scaler file exists and fails to deserialize, the loader does
not return that model with scaler None — the per-candidate handler
skips the whole candidate and the demo fallback is returned instead. -/
theorem C5_counterexample :
    load_best_model_and_meta env_scaler_bad =
      .ok "Demo_RandomForest"
        (env_scaler_bad.fit_demo demo_rf_params demo_training_samples
          demo_training_features) none none ∧
    load_best_model_and_meta env_scaler_bad ≠
      .ok "RandomForest" model_w none none := by
  have h1 : load_best_model_and_meta env_scaler_bad =
      .ok "Demo_RandomForest"
        (env_scaler_bad.fit_demo demo_rf_params demo_training_samples
          demo_training_features) none none := rfl
  refine ⟨h1, ?_⟩
  rw [h1]
  intro h
  injection h with hname
  exact absurd hname (by decide)

/-- Claim C5 as amended: a candidate whose model file deserializes
successfully is returned immediately — with scaler None when no
co-located scaler file exists, or with the loaded scaler when it
deserializes — but a scaler deserialization failure is caught by the
per-candidate handler, which skips the whole candidate and moves on to
the remaining candidates. -/
theorem C5_first_success (env : LoaderEnv) (name path : String)
    (rest : List (String × String)) (m : Model) (s : Scaler)
    (hex : env.exists_file path = true)
    (hm : env.load_model path = some m) :
    (env.exists_file (scaler_path_of path) = false →
      try_candidates env ((name, path) :: rest) = some (name, m, none)) ∧
    (env.exists_file (scaler_path_of path) = true →
      env.load_scaler (scaler_path_of path) = some s →
      try_candidates env ((name, path) :: rest) = some (name, m, some s)) ∧
    (env.exists_file (scaler_path_of path) = true →
      env.load_scaler (scaler_path_of path) = none →
      try_candidates env ((name, path) :: rest) = try_candidates env rest) := by
  refine ⟨fun h1 => ?_, fun h1 h2 => ?_, fun h1 h2 => ?_⟩
  · simp [try_candidates, hex, hm, h1]
  · simp [try_candidates, hex, hm, h1, h2]
  · simp [try_candidates, hex, hm, h1, h2]

/-- Witness for the amended C5: the RandomForest candidate loads with no
scaler file present and is returned immediately. -/
theorem C5_first_success_witness :
    try_candidates env_rf_ok [("RandomForest", "models/rf_model.joblib")] =
      some ("RandomForest", model_w, none) :=
  (C5_first_success env_rf_ok "RandomForest" "models/rf_model.joblib" []
    model_w (fun l => some l) rfl rfl).1 (by decide)

/-- Claim C7: when the model exposes probability output and the scaling
and probability steps succeed, the score is the probability at index 1
if the row has at least two entries and the single probability value if
it has exactly one; and the probability path is preferred — the label
function `predict` is never consulted. -/
theorem C7_proba_scoring (sc : Option Scaler) (m : Model)
    (fv : FeatureVector) (arr row : List ℚ)
    (f : List ℚ → Option (List ℚ)) (p : List ℚ → Option Int)
    (hpp : m.predict_proba = some f)
    (hsc : scale_step sc (feature_array fv) = some arr)
    (hrow : f arr = some row) :
    (1 < row.length → row.get? 1 = some (predict_with_model sc m fv).score) ∧
    (row.length = 1 → row.get? 0 = some (predict_with_model sc m fv).score) ∧
    predict_with_model sc { m with predict := p } fv =
      predict_with_model sc m fv := by
  have key : predict_with_model sc m fv =
      match (if row.length > 1 then row.get? 1 else row.get? 0) with
      | none => default_prediction
      | some s => mk_prediction s := by
    unfold predict_with_model
    rw [hsc]
    dsimp only
    rw [hpp]
    dsimp only
    rw [hrow]
  refine ⟨?_, ?_, ?_⟩
  · intro hlen
    cases hq : row.get? 1 with
    | none => exact absurd (List.get?_eq_none.mp hq) (by omega)
    | some s =>
      rw [key, if_pos hlen, hq]
      rfl
  · intro hlen
    cases hq : row.get? 0 with
    | none => exact absurd (List.get?_eq_none.mp hq) (by omega)
    | some s =>
      rw [key, if_neg (by omega), hq]
      rfl
  · obtain ⟨pp, pr⟩ := m
    unfold predict_with_model
    rw [hsc]
    dsimp only at hpp ⊢
    rw [hpp]

/-- Witness for C7: a two-class probability row and a one-class row. -/
theorem C7_proba_scoring_witness :
    [(1:ℚ)/4, 3/4].get? 1 =
      some (predict_with_model none model_w base_features).score ∧
    predict_with_model none { model_w with predict := fun _ => some (-1) }
        base_features =
      predict_with_model none model_w base_features ∧
    [(3:ℚ)/5].get? 0 =
      some (predict_with_model none model_single base_features).score :=
  ⟨(C7_proba_scoring none model_w base_features
      (feature_array base_features) [1/4, 3/4] proba_w
      (fun _ => some (-1)) rfl rfl rfl).1 (by norm_num),
   (C7_proba_scoring none model_w base_features
      (feature_array base_features) [1/4, 3/4] proba_w
      (fun _ => some (-1)) rfl rfl rfl).2.2,
   (C7_proba_scoring none model_single base_features
      (feature_array base_features) [3/5] proba_single
      (fun _ => some (-1)) rfl rfl rfl).2.1 rfl⟩

/-- After `N` successful ticks, the log holds its initial rows followed
by the `N` appended data rows, in tick order. -/
theorem run_n_append (m : Monitor) (ticks : Nat → TickInput)
    (hw : ∀ i, (ticks i).write_fails = false) (N : Nat)
    (rows : List (List String)) :
    run_n m ticks N (some rows) = some (rows ++ data_rows m ticks N) := by
  induction N with
  | zero => simp [run_n, data_rows]
  | succ n ih =>
    simp only [run_n]
    rw [ih]
    simp [run_detection_once, log_detection, hw n, data_rows,
      List.range_succ]

/-- Claim C8: starting from a non-existent log file, after monitor
construction and `N` successful `run_detection_once` calls the log
contains exactly the header row followed by `N` data rows in tick
order, every row (header included) has 11 fields, and the header is
written only when the file does not yet exist. -/
theorem C8_log_shape (name : String) (model : Model) (sc : Option Scaler)
    (ticks : Nat → TickInput) (N : Nat) (rows : List (List String))
    (hw : ∀ i, (ticks i).write_fails = false) :
    run_n (mk_monitor name model sc none).1 ticks N
        (mk_monitor name model sc none).2 =
      some (csv_headers :: data_rows (mk_monitor name model sc none).1
        ticks N) ∧
    (data_rows (mk_monitor name model sc none).1 ticks N).length = N ∧
    csv_headers.length = 11 ∧
    ((csv_headers :: data_rows (mk_monitor name model sc none).1 ticks N).all
      fun r => r.length == 11) = true ∧
    init_log_file (some rows) = some rows := by
  refine ⟨?_, ?_, rfl, ?_, rfl⟩
  · show run_n (mk_monitor name model sc none).1 ticks N
        (some [csv_headers]) = _
    rw [run_n_append (mk_monitor name model sc none).1 ticks hw N
      [csv_headers]]
    rfl
  · simp [data_rows]
  · rw [List.all_eq_true]
    intro r hr
    rcases List.mem_cons.mp hr with rfl | hr2
    · rfl
    · obtain ⟨i, _, hri⟩ := List.mem_map.mp hr2
      rw [← hri]
      rfl

/-- Witness for C8 at a concrete monitor and two ticks. -/
theorem C8_log_shape_witness :
    run_n (mk_monitor "RandomForest" model_w none none).1 ticks0 2
        (mk_monitor "RandomForest" model_w none none).2 =
      some (csv_headers ::
        data_rows (mk_monitor "RandomForest" model_w none none).1 ticks0 2) ∧
    (data_rows (mk_monitor "RandomForest" model_w none none).1
      ticks0 2).length = 2 ∧
    csv_headers.length = 11 ∧
    ((csv_headers ::
        data_rows (mk_monitor "RandomForest" model_w none none).1
          ticks0 2).all fun r => r.length == 11) = true ∧
    init_log_file (some []) = some [] :=
  C8_log_shape "RandomForest" model_w none ticks0 2 [] (fun _ => rfl)

end AuthAI
